import Mathlib

/-!
Verification development for zipflow of the URI resolver and streaming archive pipeline

Shallow embedding of the TypeScript sources:

* `src/utils/uri-parser.ts` — `parseUri`, `getUriDirectory`, `getUriFilename`,
  and the `Archiver.archiveFiles` orchestration (the URI-based variant).
* `src/providers/.../s3-storage-provider.ts` — the error-wrapping behaviour of
  the S3 and filesystem storage providers.

JavaScript strings are modelled as `List Char`; the effectful pipeline is
modelled as a pure function that returns the list of provider/encoder effects
it performs together with its result.
-/

/-- JavaScript strings are modelled as lists of characters. -/
abbrev Str := List Char

/-- Coerce a Lean string literal into the `List Char` model. -/
def str (s : String) : Str := s.data

/-- Model of `ConfigurationError` from `src/types/index.ts` (only the message matters). -/
structure ConfigurationError where
  message : Str
deriving DecidableEq, Repr

/-- Model of `StorageScheme` from `src/utils/uri-parser.ts`: `'s3' | 'file'`. -/
inductive StorageScheme where
  | s3
  | file
deriving DecidableEq, Repr

/-- Model of `ParsedUri` from `src/utils/uri-parser.ts`. -/
structure ParsedUri where
  scheme : StorageScheme
  bucket : Option Str
  path : Str
  fullPath : Str
deriving DecidableEq, Repr

/-- JS `s.indexOf(c)`: index of the first occurrence of `c`, `none` for `-1`. -/
def jsIndexOf (c : Char) : Str → Option Nat
  | [] => none
  | a :: rest => if a = c then some 0 else (jsIndexOf c rest).map (· + 1)

/-- Model of `parseUri` from `src/utils/uri-parser.ts` (lines 37–90).  A thrown
`ConfigurationError` is modelled by `Except.error`.  JS `indexOf('/')` is
`jsIndexOf '/'`, `slice(0, i)` is `take i`, `slice(i+1)` is `drop (i+1)`. -/
def parseUri (uri : Str) : Except ConfigurationError ParsedUri :=
  if uri = [] then
    .error ⟨str "URI cannot be empty"⟩
  else if (str "s3://").isPrefixOf uri then
    let withoutScheme := uri.drop 5
    match jsIndexOf '/' withoutScheme with
    | none =>
      -- Just bucket, no path
      .ok ⟨.s3, some withoutScheme, [], uri⟩
    | some firstSlash =>
      let bucket := withoutScheme.take firstSlash
      let path := withoutScheme.drop (firstSlash + 1)
      if bucket = [] then
        .error ⟨str "Invalid S3 URI: " ++ uri ++ str " (missing bucket)"⟩
      else
        .ok ⟨.s3, some bucket, path, uri⟩
  else if (str "file://").isPrefixOf uri then
    let path := uri.drop 7
    if path = [] then
      .error ⟨str "Invalid file URI: " ++ uri ++ str " (missing path)"⟩
    else
      .ok ⟨.file, none, path, uri⟩
  else
    .error ⟨str "Unsupported URI scheme: " ++ uri ++ str " (supported: s3://, file://)"⟩

/-- JS `s.lastIndexOf(c)`: index of the last occurrence, `-1` if absent. -/
def jsLastIndexOf (s : Str) (c : Char) : Int :=
  match s.reverse.findIdx? (· = c) with
  | none => -1
  | some j => (s.length : Int) - 1 - (j : Int)

/-- The path→directory computation inside `getUriDirectory`
(`src/utils/uri-parser.ts` lines 97–106):
everything up to and including the last `/`, or `''` if there is none. -/
def pathDirectory (path : Str) : Str :=
  let lastSlash := jsLastIndexOf path '/'
  if lastSlash = -1 then []
  else path.take (lastSlash + 1).toNat

/-- The path→filename computation inside `getUriFilename`
(`src/utils/uri-parser.ts` lines 113–122):
everything after the last `/`, or the whole path if there is none. -/
def pathFilename (path : Str) : Str :=
  let lastSlash := jsLastIndexOf path '/'
  if lastSlash = -1 then path
  else path.drop (lastSlash + 1).toNat

/-- Model of `getUriDirectory` from `src/utils/uri-parser.ts`: parses, then slices. -/
def getUriDirectory (uri : Str) : Except ConfigurationError Str :=
  (parseUri uri).map fun parsed => pathDirectory parsed.path

/-- Model of `getUriFilename` from `src/utils/uri-parser.ts`: parses, then slices. -/
def getUriFilename (uri : Str) : Except ConfigurationError Str :=
  (parseUri uri).map fun parsed => pathFilename parsed.path

/-- Whether an `Except` is an error (a thrown exception in the source). -/
def isErr {ε α : Type} : Except ε α → Bool
  | .error _ => true
  | .ok _ => false

instance {ε α : Type} [DecidableEq ε] [DecidableEq α] : DecidableEq (Except ε α) := fun a b =>
  match a, b with
  | .ok x, .ok y =>
    if h : x = y then .isTrue (by rw [h]) else .isFalse (by intro hc; cases hc; exact h rfl)
  | .error x, .error y =>
    if h : x = y then .isTrue (by rw [h]) else .isFalse (by intro hc; cases hc; exact h rfl)
  | .ok _, .error _ => .isFalse (by intro hc; cases hc)
  | .error _, .ok _ => .isFalse (by intro hc; cases hc)

/-- Model of `StorageObject` from `src/core/interfaces/storage-provider.ts`.
Only the `key` field is ever consulted by the pipeline (its optional `size`,
`lastModified` and `etag` metadata never influence control flow), so the
embedding records just the key. -/
structure StorageObject where
  key : Str
deriving DecidableEq, Repr

/-- Model of `UploadResult` (plus the `signedUrl` the archiver adds to it). -/
structure UploadResult where
  key : Str
  location : Str
  signedUrl : Str
deriving DecidableEq, Repr

/-- Errors `archiveFiles` can surface: a `ConfigurationError` thrown by
`parseUri`, or an `ArchiveError` (`src/types/index.ts`). -/
inductive ArchiverError where
  | config (e : ConfigurationError)
  | archive (message : Str)
deriving DecidableEq, Repr

/-- One observable interaction of the pipeline with the storage provider or
the archive encoder, in the order the source performs them. -/
inductive Effect where
  | listObjects (container pfx : Str)
  | createContainer (container : Str)
  | startUpload (container key : Str)
  | appendEntry (name : Str)
  | appendFailed (key : Str)
  | finalize
  | getUrl (container key : Str)
deriving DecidableEq, Repr

/-- Environment model of a `StorageProvider` as the pipeline sees it: the
listing it returns, whether `getObjectStream` succeeds for a given
container/key, and the values `uploadObject`/`getObjectUrl` produce. -/
structure ProviderModel where
  listObjects : Str → Str → List StorageObject
  openOk : Str → Str → Bool
  location : Str → Str → Str
  url : Str → Str → Str

/-- Result of one `archiveFiles` run: the effects performed, in order, and
the returned value or thrown error. -/
structure ArchiveOutcome where
  effects : List Effect
  result : Except ArchiverError UploadResult

/-- JS `s.endsWith(t)`. -/
def jsEndsWith (s t : Str) : Bool := t.isSuffixOf s

/-- The filter applied to the listing (line 312): keep objects with a truthy
key that does not end in `/`. -/
def isFileObject (obj : StorageObject) : Bool :=
  !obj.key.isEmpty && !(jsEndsWith obj.key (str "/"))

/-- The body of the per-file loop in `Archiver.archiveFiles`
(`src/core/archiver.ts`, lines 336–347 of the concatenated source):
`if (!file.key) continue;` then `getObjectStream` + `archive.append`
on success, and log-and-continue on failure. -/
def processFile (prov : ProviderModel) (sourceContainer : Str) (file : StorageObject) :
    List Effect :=
  if file.key.isEmpty then []
  else if prov.openOk sourceContainer file.key then [.appendEntry file.key]
  else [.appendFailed file.key]

/-- Model of `Archiver.archiveFiles` after URI resolution (lines 302–367 of
the concatenated source): list, guard against empty / directories-only
listings, create the target container, start the upload, append each file,
finalize, and fetch the signed URL.  `sourceUri` is only used in error
messages, as in the source. -/
def archiveCore (prov : ProviderModel)
    (sourceContainer sourcePfx targetContainer targetKey sourceUri : Str) : ArchiveOutcome :=
  let objects := prov.listObjects sourceContainer sourcePfx
  if objects.length = 0 then
    { effects := [.listObjects sourceContainer sourcePfx],
      result := .error (.archive (str "No files found in " ++ sourceUri)) }
  else
    let files := objects.filter isFileObject
    if files.length = 0 then
      { effects := [.listObjects sourceContainer sourcePfx],
        result := .error (.archive (str "No files found (only directories) in " ++ sourceUri)) }
    else
      { effects :=
          [.listObjects sourceContainer sourcePfx,
           .createContainer targetContainer,
           .startUpload targetContainer targetKey] ++
          (files.map (processFile prov sourceContainer)).flatten ++
          [.finalize, .getUrl targetContainer targetKey],
        result := .ok
          { key := targetKey,
            location := prov.location targetContainer targetKey,
            signedUrl := prov.url targetContainer targetKey } }

/-- Container/prefix resolution in `archiveFiles` (lines 289–300): for
`s3://` sources the bucket is the container and the path the prefix; for
`file://` sources the path is the container and the prefix is empty. -/
def resolvedSourceContainer (source : ParsedUri) : Str :=
  if source.scheme = .s3 then source.bucket.getD [] else source.path

/-- Prefix resolution companion of `resolvedSourceContainer`. -/
def resolvedSourcePfx (source : ParsedUri) : Str :=
  if source.scheme = .s3 then source.path else []

/-- Target container resolution in `archiveFiles` (lines 289–300); note the
source branches on the SOURCE scheme, exactly as the code does. -/
def resolvedTargetContainer (source target : ParsedUri) : Str :=
  if source.scheme = .s3 then target.bucket.getD [] else []

/-- Model of the URI-based `Archiver.archiveFiles` (lines 273–367): parse
both URIs, resolve containers, run the pipeline core. -/
def archiveFiles (prov : ProviderModel) (sourceUri targetUri : Str) : ArchiveOutcome :=
  match parseUri sourceUri with
  | .error e => { effects := [], result := .error (.config e) }
  | .ok source =>
    match parseUri targetUri with
    | .error e => { effects := [], result := .error (.config e) }
    | .ok target =>
      archiveCore prov (resolvedSourceContainer source) (resolvedSourcePfx source)
        (resolvedTargetContainer source target) target.path sourceUri

/-- Names of the entries appended to the ZIP encoder, in append order. -/
def appendedNames (effects : List Effect) : List Str :=
  effects.filterMap fun e =>
    match e with
    | .appendEntry n => some n
    | _ => none

/-- Error value surfaced to a caller of a storage-provider method:
`S3OperationError`, `StorageOperationError`, or the unwrapped backend error
re-thrown as-is (the bare `throw error` in the `objectExists` catch blocks). -/
inductive SurfacedError where
  | s3Op (message : Str)
  | storageOp (message : Str)
  | raw (message : Str)
deriving DecidableEq, Repr

/-- JS `error.message` of a surfaced error. -/
def SurfacedError.message : SurfacedError → Str
  | .s3Op m => m
  | .storageOp m => m
  | .raw m => m

/-- Whether a surfaced error is of a declared storage error kind
(`S3OperationError` / `StorageOperationError`) rather than a re-thrown
backend error. -/
def declaredKind : SurfacedError → Bool
  | .s3Op _ => true
  | .storageOp _ => true
  | .raw _ => false

/-- Outcome of the underlying backend call: success, or a thrown error
carrying whether it is a not-found condition (`NotFound`/404 for S3,
`ENOENT` for the filesystem) and its message. -/
inductive BackendResult (α : Type) where
  | ok (value : α)
  | err (notFound : Bool) (message : Str)

/-- Catch-clause of `S3StorageProvider.listObjects` (lines 37–69). -/
def s3ListObjects (backend : BackendResult (List StorageObject)) :
    Except SurfacedError (List StorageObject) :=
  match backend with
  | .ok v => .ok v
  | .err _ m => .error (.s3Op (str "Failed to list objects: " ++ m))

/-- Catch-clause of `S3StorageProvider.getObjectStream` (lines 71–91);
the stream itself is abstracted to `Unit`. -/
def s3GetObjectStream (key : Str) (backend : BackendResult Unit) :
    Except SurfacedError Unit :=
  match backend with
  | .ok v => .ok v
  | .err _ m => .error (.s3Op (str "Failed to fetch " ++ key ++ str ": " ++ m))

/-- Catch-clause of `S3StorageProvider.uploadObject` (lines 93–142). -/
def s3UploadObject (backend : BackendResult Unit) : Except SurfacedError Unit :=
  match backend with
  | .ok v => .ok v
  | .err _ m => .error (.s3Op (str "Upload failed: " ++ m))

/-- Catch-clause of `S3StorageProvider.deleteObject` (lines 144–160). -/
def s3DeleteObject (key : Str) (backend : BackendResult Unit) : Except SurfacedError Unit :=
  match backend with
  | .ok v => .ok v
  | .err _ m => .error (.s3Op (str "Failed to delete " ++ key ++ str ": " ++ m))

/-- Catch-clause of `S3StorageProvider.getObjectUrl` (lines 179–193). -/
def s3GetObjectUrl (signedUrl : Str) (backend : BackendResult Unit) :
    Except SurfacedError Str :=
  match backend with
  | .ok _ => .ok signedUrl
  | .err _ m => .error (.s3Op (str "Failed to generate signed URL: " ++ m))

/-- Model of `S3StorageProvider.objectExists` (lines 162–177): `NotFound`/404
yields `false`; any other backend error is re-thrown UNWRAPPED (`throw
error`). -/
def s3ObjectExists (backend : BackendResult Unit) : Except SurfacedError Bool :=
  match backend with
  | .ok _ => .ok true
  | .err true _ => .ok false
  | .err false m => .error (.raw m)

/-- Model of `FilesystemStorageProvider.objectExists` (lines 428–439):
`ENOENT` yields `false`; any other error is re-thrown UNWRAPPED. -/
def fsObjectExists (backend : BackendResult Unit) : Except SurfacedError Bool :=
  match backend with
  | .ok _ => .ok true
  | .err true _ => .ok false
  | .err false m => .error (.raw m)

/-- Model of `FilesystemStorageProvider.getObjectStream` (lines 349–365):
`ENOENT` becomes `StorageOperationError('File not found: key')` (the backend
message is replaced); other errors are wrapped with the original message. -/
def fsGetObjectStream (key : Str) (backend : BackendResult Unit) :
    Except SurfacedError Unit :=
  match backend with
  | .ok v => .ok v
  | .err true _ => .error (.storageOp (str "File not found: " ++ key))
  | .err false m => .error (.storageOp (str "Failed to fetch " ++ key ++ str ": " ++ m))

/-- Model of `FilesystemStorageProvider.deleteObject` (lines 410–426):
`ENOENT` is treated as already deleted; other errors are wrapped. -/
def fsDeleteObject (key : Str) (backend : BackendResult Unit) : Except SurfacedError Unit :=
  match backend with
  | .ok v => .ok v
  | .err true _ => .ok ()
  | .err false m => .error (.storageOp (str "Failed to delete " ++ key ++ str ": " ++ m))

/-- Try-block of `FilesystemStorageProvider.getObjectUrl` (lines 441–456):
check existence via `objectExists`, throw `StorageOperationError('File not
found: key')` when absent, otherwise return the `file://` URL. -/
def fsGetObjectUrlBody (key fileUrl : Str) (backend : BackendResult Unit) :
    Except SurfacedError Str :=
  match fsObjectExists backend with
  | .error e => .error e
  | .ok false => .error (.storageOp (str "File not found: " ++ key))
  | .ok true => .ok fileUrl

/-- Model of `FilesystemStorageProvider.getObjectUrl` (lines 441–456): the
catch-clause wraps whatever the body throws into
`StorageOperationError('Failed to get URL for key: message')`. -/
def fsGetObjectUrl (key fileUrl : Str) (backend : BackendResult Unit) :
    Except SurfacedError Str :=
  match fsGetObjectUrlBody key fileUrl backend with
  | .ok u => .ok u
  | .error e =>
    .error (.storageOp (str "Failed to get URL for " ++ key ++ str ": " ++ e.message))

/-- Whether a pipeline result is a thrown `ArchiveError`. -/
def isArchiveError : Except ArchiverError UploadResult → Bool
  | .error (.archive _) => true
  | _ => false

/-- Example provider: one file listed under the prefix `data/`, all reads
succeed.  Mirrors an S3 listing, whose keys always include the prefix. -/
def provPrefixed : ProviderModel where
  listObjects := fun _ _ => [⟨str "data/a.txt"⟩]
  openOk := fun _ _ => true
  location := fun _ _ => str "s3://out/x.zip"
  url := fun _ _ => str "https://signed.example/x.zip"

/-- Example provider: the listing is always empty. -/
def provEmpty : ProviderModel where
  listObjects := fun _ _ => []
  openOk := fun _ _ => true
  location := fun _ _ => str "s3://out/x.zip"
  url := fun _ _ => str "https://signed.example/x.zip"

/-- Example provider: two files, the first of which fails to open. -/
def provOneBad : ProviderModel where
  listObjects := fun _ _ => [⟨str "bad.txt"⟩, ⟨str "good.txt"⟩]
  openOk := fun _ k => !(k == str "bad.txt")
  location := fun _ _ => str "s3://out/x.zip"
  url := fun _ _ => str "https://signed.example/x.zip"

/-- Example provider: a duplicate key and a directory marker in the listing. -/
def provDup : ProviderModel where
  listObjects := fun _ _ => [⟨str "a.txt"⟩, ⟨str "dir/"⟩, ⟨str "a.txt"⟩]
  openOk := fun _ _ => true
  location := fun _ _ => str "s3://out/x.zip"
  url := fun _ _ => str "https://signed.example/x.zip"

/-! Helper lemmas about the embedded string functions and the pipeline. -/

theorem drop5_s3 (rest : Str) : (str "s3://" ++ rest).drop 5 = rest := by
  show (str "s3://" ++ rest).drop ((str "s3://").length) = rest
  exact List.drop_left _ _

theorem drop7_file (rest : Str) : (str "file://" ++ rest).drop 7 = rest := by
  show (str "file://" ++ rest).drop ((str "file://").length) = rest
  exact List.drop_left _ _

theorem s3_append_ne_nil (rest : Str) : str "s3://" ++ rest ≠ [] := by
  rw [show str "s3://" ++ rest = 's' :: (str "3://" ++ rest) from rfl]
  exact List.cons_ne_nil _ _

theorem file_append_ne_nil (rest : Str) : str "file://" ++ rest ≠ [] := by
  rw [show str "file://" ++ rest = 'f' :: (str "ile://" ++ rest) from rfl]
  exact List.cons_ne_nil _ _

theorem s3_not_prefix_file_append (rest : Str) :
    ¬ (str "s3://") <+: (str "file://" ++ rest) := by
  intro hc
  rw [show str "s3://" = 's' :: str "3://" from rfl,
    show str "file://" ++ rest = 'f' :: (str "ile://" ++ rest) from rfl,
    List.cons_prefix_cons] at hc
  exact absurd hc.1 (by decide)

theorem parseUri_s3_eq (rest : Str) :
    parseUri (str "s3://" ++ rest) =
      match jsIndexOf '/' rest with
      | none => .ok ⟨.s3, some rest, [], str "s3://" ++ rest⟩
      | some firstSlash =>
        if rest.take firstSlash = [] then
          .error ⟨str "Invalid S3 URI: " ++ (str "s3://" ++ rest) ++ str " (missing bucket)"⟩
        else
          .ok ⟨.s3, some (rest.take firstSlash), rest.drop (firstSlash + 1),
            str "s3://" ++ rest⟩ := by
  have hpre : (str "s3://").isPrefixOf (str "s3://" ++ rest) = true :=
    List.isPrefixOf_iff_prefix.mpr (List.prefix_append _ _)
  unfold parseUri
  rw [if_neg (s3_append_ne_nil rest), if_pos hpre]
  simp only [drop5_s3]

theorem parseUri_file_eq (rest : Str) :
    parseUri (str "file://" ++ rest) =
      if rest = [] then
        .error ⟨str "Invalid file URI: " ++ (str "file://" ++ rest) ++ str " (missing path)"⟩
      else
        .ok ⟨.file, none, rest, str "file://" ++ rest⟩ := by
  have hs3 : (str "s3://").isPrefixOf (str "file://" ++ rest) = false := by
    rw [Bool.eq_false_iff]
    intro hc
    exact s3_not_prefix_file_append rest (List.isPrefixOf_iff_prefix.mp hc)
  have hpre : (str "file://").isPrefixOf (str "file://" ++ rest) = true :=
    List.isPrefixOf_iff_prefix.mpr (List.prefix_append _ _)
  unfold parseUri
  rw [if_neg (file_append_ne_nil rest), hs3, if_pos hpre]
  simp only [drop7_file, Bool.false_eq_true, if_false]

theorem pathDirectory_append_pathFilename (s : Str) :
    pathDirectory s ++ pathFilename s = s := by
  by_cases h : jsLastIndexOf s '/' = -1 <;>
    simp [pathDirectory, pathFilename, h, List.take_append_drop]

theorem isFileObject_key_not_empty {f : StorageObject} (h : isFileObject f = true) :
    f.key.isEmpty = false := by
  unfold isFileObject at h
  rw [Bool.and_eq_true, Bool.not_eq_true'] at h
  exact h.1

theorem appendedNames_append (a b : List Effect) :
    appendedNames (a ++ b) = appendedNames a ++ appendedNames b :=
  List.filterMap_append a b _

theorem appendedNames_flatten (prov : ProviderModel) (sc : Str) (l : List StorageObject)
    (h : ∀ f ∈ l, f.key.isEmpty = false) :
    appendedNames ((l.map (processFile prov sc)).flatten) =
      (l.filter fun f => prov.openOk sc f.key).map StorageObject.key := by
  induction l with
  | nil => rfl
  | cons f t ih =>
    have hf := h f (List.mem_cons_self f t)
    have ht : ∀ g ∈ t, g.key.isEmpty = false := fun g hg => h g (List.mem_cons_of_mem f hg)
    rw [List.map_cons, List.flatten_cons, appendedNames_append, ih ht, List.filter_cons]
    by_cases ho : prov.openOk sc f.key
    · simp [processFile, hf, ho, appendedNames]
    · simp [processFile, hf, ho, appendedNames]

theorem archiveCore_filter_empty (prov : ProviderModel) (sc sp tc tk su : Str)
    (h : (prov.listObjects sc sp).filter isFileObject = []) :
    (archiveCore prov sc sp tc tk su).effects = [.listObjects sc sp] ∧
    ∃ m, (archiveCore prov sc sp tc tk su).result = .error (.archive m) := by
  unfold archiveCore
  by_cases h0 : (prov.listObjects sc sp).length = 0
  · simp [h0]
  · simp [h0, h]

theorem archiveCore_effects (prov : ProviderModel) (sc sp tc tk su : Str)
    (h : (prov.listObjects sc sp).filter isFileObject ≠ []) :
    (archiveCore prov sc sp tc tk su).effects =
      [.listObjects sc sp, .createContainer tc, .startUpload tc tk] ++
      (((prov.listObjects sc sp).filter isFileObject).map (processFile prov sc)).flatten ++
      [.finalize, .getUrl tc tk] ∧
    (archiveCore prov sc sp tc tk su).result = .ok
      { key := tk, location := prov.location tc tk, signedUrl := prov.url tc tk } := by
  have h0 : ¬ (prov.listObjects sc sp).length = 0 := by
    intro h0
    rw [List.length_eq_zero] at h0
    exact h (by rw [h0]; rfl)
  have h1 : ¬ ((prov.listObjects sc sp).filter isFileObject).length = 0 := by
    intro h1
    exact h (List.length_eq_zero.mp h1)
  unfold archiveCore
  simp [h0, h1]

/-! Claim theorems. -/

/-- **C1 (counterexample)**: the claim predicts that a file listed under
prefix `data/` with key `data/a.txt` is archived under the prefix-relative
entry name `a.txt`.  The pipeline actually appends it under its full key
`data/a.txt`, so the listing prefix is not stripped. -/
theorem archive_entry_name_keeps_pfx :
    appendedNames
        (archiveFiles provPrefixed (str "s3://bucket/data/") (str "s3://out/x.zip")).effects =
      [str "data/a.txt"] ∧
    appendedNames
        (archiveFiles provPrefixed (str "s3://bucket/data/") (str "s3://out/x.zip")).effects ≠
      [str "a.txt"] := by
  constructor
  · decide
  · decide

/-- **C1 (amended)**: for every non-empty filtered listing, each file that
successfully opens is appended exactly once, under an entry name equal to its
FULL listed key (the listing prefix is not stripped), in listing order, and
the run completes without error. -/
theorem archive_entries_are_full_listed_keys (prov : ProviderModel) (sc sp tc tk su : Str)
    (h : (prov.listObjects sc sp).filter isFileObject ≠ []) :
    appendedNames (archiveCore prov sc sp tc tk su).effects =
      (((prov.listObjects sc sp).filter isFileObject).filter fun f =>
        prov.openOk sc f.key).map StorageObject.key ∧
    isErr (archiveCore prov sc sp tc tk su).result = false := by
  obtain ⟨he, hr⟩ := archiveCore_effects prov sc sp tc tk su h
  constructor
  · rw [he, appendedNames_append, appendedNames_append,
      appendedNames_flatten prov sc _
        (fun f hf => isFileObject_key_not_empty (List.mem_filter.mp hf).2)]
    simp [appendedNames]
  · rw [hr]
    rfl

/-- **C1 (witness)**: the amended claim instantiated at a concrete provider
with one file listed under the prefix `data/`. -/
theorem archive_entries_are_full_listed_keys_witness :
    appendedNames
        (archiveCore provPrefixed (str "bucket") (str "data/") (str "out") (str "x.zip")
          (str "s3://bucket/data/")).effects =
      (((provPrefixed.listObjects (str "bucket") (str "data/")).filter isFileObject).filter
        fun f => provPrefixed.openOk (str "bucket") f.key).map StorageObject.key ∧
    isErr
        (archiveCore provPrefixed (str "bucket") (str "data/") (str "out") (str "x.zip")
          (str "s3://bucket/data/")).result = false :=
  archive_entries_are_full_listed_keys provPrefixed (str "bucket") (str "data/") (str "out")
    (str "x.zip") (str "s3://bucket/data/") (by decide)

/-- **C2**: when the listing is empty, or contains only keys ending in `/`,
`archiveFiles` fails with an `ArchiveError` and performs no operation on the
target: no `createContainer` and no upload is ever started. -/
theorem archive_untouched_target_on_empty_listing (prov : ProviderModel)
    (sourceUri targetUri : Str) (source target : ParsedUri)
    (hs : parseUri sourceUri = .ok source)
    (ht : parseUri targetUri = .ok target)
    (hempty :
      prov.listObjects (resolvedSourceContainer source) (resolvedSourcePfx source) = [] ∨
      ∀ obj ∈ prov.listObjects (resolvedSourceContainer source) (resolvedSourcePfx source),
        jsEndsWith obj.key (str "/") = true) :
    isArchiveError (archiveFiles prov sourceUri targetUri).result = true ∧
    (∀ c, Effect.createContainer c ∉ (archiveFiles prov sourceUri targetUri).effects) ∧
    (∀ c k, Effect.startUpload c k ∉ (archiveFiles prov sourceUri targetUri).effects) := by
  have hfilter :
      (prov.listObjects (resolvedSourceContainer source)
        (resolvedSourcePfx source)).filter isFileObject = [] := by
    rcases hempty with he | hd
    · rw [he]
      rfl
    · rw [List.filter_eq_nil_iff]
      intro a ha
      simp [isFileObject, hd a ha]
  obtain ⟨he, m, hr⟩ := archiveCore_filter_empty prov _ _
    (resolvedTargetContainer source target) target.path sourceUri hfilter
  have hout : archiveFiles prov sourceUri targetUri =
      archiveCore prov (resolvedSourceContainer source) (resolvedSourcePfx source)
        (resolvedTargetContainer source target) target.path sourceUri := by
    simp [archiveFiles, hs, ht]
  rw [hout, he, hr]
  refine ⟨rfl, ?_, ?_⟩
  · intro c
    simp
  · intro c k
    simp

/-- **C2 (witness)**: the claim instantiated at a provider whose listing is
empty, with concrete source and target URIs. -/
theorem archive_untouched_target_on_empty_listing_witness :
    isArchiveError
        (archiveFiles provEmpty (str "s3://bucket/data/") (str "s3://out/x.zip")).result = true ∧
    Effect.createContainer (str "out") ∉
      (archiveFiles provEmpty (str "s3://bucket/data/") (str "s3://out/x.zip")).effects ∧
    Effect.startUpload (str "out") (str "x.zip") ∉
      (archiveFiles provEmpty (str "s3://bucket/data/") (str "s3://out/x.zip")).effects := by
  obtain ⟨h1, h2, h3⟩ := archive_untouched_target_on_empty_listing provEmpty
    (str "s3://bucket/data/") (str "s3://out/x.zip")
    ⟨.s3, some (str "bucket"), str "data/", str "s3://bucket/data/"⟩
    ⟨.s3, some (str "out"), str "x.zip", str "s3://out/x.zip"⟩
    (by decide) (by decide) (Or.inl rfl)
  exact ⟨h1, h2 (str "out"), h3 (str "out") (str "x.zip")⟩

/-- **C3**: a failed `getObjectStream` on one file is recorded
(`appendFailed`) and does not prevent any other listed file from being
appended; the run still finalizes and completes without error. -/
theorem archive_continues_after_failed_file (prov : ProviderModel) (sc sp tc tk su : Str)
    (h : (prov.listObjects sc sp).filter isFileObject ≠ []) :
    (∀ f ∈ (prov.listObjects sc sp).filter isFileObject, prov.openOk sc f.key = false →
      Effect.appendFailed f.key ∈ (archiveCore prov sc sp tc tk su).effects) ∧
    (∀ f ∈ (prov.listObjects sc sp).filter isFileObject, prov.openOk sc f.key = true →
      Effect.appendEntry f.key ∈ (archiveCore prov sc sp tc tk su).effects) ∧
    Effect.finalize ∈ (archiveCore prov sc sp tc tk su).effects ∧
    isErr (archiveCore prov sc sp tc tk su).result = false := by
  obtain ⟨he, hr⟩ := archiveCore_effects prov sc sp tc tk su h
  rw [he]
  refine ⟨?_, ?_, by simp, by rw [hr]; rfl⟩
  · intro f hf ho
    have hne := isFileObject_key_not_empty (List.mem_filter.mp hf).2
    have hmem : Effect.appendFailed f.key ∈
        (((prov.listObjects sc sp).filter isFileObject).map (processFile prov sc)).flatten := by
      rw [List.mem_flatten]
      exact ⟨processFile prov sc f, List.mem_map_of_mem _ hf, by simp [processFile, hne, ho]⟩
    simp [hmem]
  · intro f hf ho
    have hne := isFileObject_key_not_empty (List.mem_filter.mp hf).2
    have hmem : Effect.appendEntry f.key ∈
        (((prov.listObjects sc sp).filter isFileObject).map (processFile prov sc)).flatten := by
      rw [List.mem_flatten]
      exact ⟨processFile prov sc f, List.mem_map_of_mem _ hf, by simp [processFile, hne, ho]⟩
    simp [hmem]

/-- **C3 (witness)**: with a listing of two files where the first fails to
open, the failure is recorded, the second file is still appended, the
encoder is finalized and the run succeeds. -/
theorem archive_continues_after_failed_file_witness :
    Effect.appendFailed (str "bad.txt") ∈
      (archiveCore provOneBad (str "c") [] (str "t") (str "k") (str "file://c")).effects ∧
    Effect.appendEntry (str "good.txt") ∈
      (archiveCore provOneBad (str "c") [] (str "t") (str "k") (str "file://c")).effects ∧
    Effect.finalize ∈
      (archiveCore provOneBad (str "c") [] (str "t") (str "k") (str "file://c")).effects ∧
    isErr (archiveCore provOneBad (str "c") [] (str "t") (str "k") (str "file://c")).result =
      false := by
  obtain ⟨h1, h2, h3, h4⟩ := archive_continues_after_failed_file provOneBad
    (str "c") [] (str "t") (str "k") (str "file://c") (by decide)
  exact ⟨h1 ⟨str "bad.txt"⟩ (by decide) (by decide),
    h2 ⟨str "good.txt"⟩ (by decide) (by decide), h3, h4⟩

/-- **C4**: when every object stream opens successfully, the sequence of
entries appended to the encoder equals, in order, the subsequence of listed
objects whose key is non-empty and does not end in `/`; in particular no
reordering or deduplication happens, so duplicate listed keys are appended
twice. -/
theorem archive_order_no_dedup (prov : ProviderModel) (sc sp tc tk su : Str)
    (hall : ∀ k, prov.openOk sc k = true) :
    appendedNames (archiveCore prov sc sp tc tk su).effects =
      ((prov.listObjects sc sp).filter isFileObject).map StorageObject.key := by
  by_cases h : (prov.listObjects sc sp).filter isFileObject = []
  · obtain ⟨he, m, hr⟩ := archiveCore_filter_empty prov sc sp tc tk su h
    rw [he, h]
    rfl
  · obtain ⟨he, hr⟩ := archiveCore_effects prov sc sp tc tk su h
    rw [he, appendedNames_append, appendedNames_append,
      appendedNames_flatten prov sc _
        (fun f hf => isFileObject_key_not_empty (List.mem_filter.mp hf).2),
      List.filter_eq_self.mpr (fun f _ => hall f.key)]
    simp [appendedNames]

/-- **C4 (witness)**: a listing with a duplicate key and a directory marker:
the directory marker is dropped and the duplicate key is appended twice, in
listing order. -/
theorem archive_order_no_dedup_witness :
    appendedNames (archiveCore provDup (str "c") [] (str "t") (str "k") (str "file://c")).effects =
      ((provDup.listObjects (str "c") []).filter isFileObject).map StorageObject.key ∧
    ((provDup.listObjects (str "c") []).filter isFileObject).map StorageObject.key =
      [str "a.txt", str "a.txt"] :=
  ⟨archive_order_no_dedup provDup (str "c") [] (str "t") (str "k") (str "file://c")
    (fun _ => rfl), by decide⟩

/-- **C5 (counterexample)**: `parseUri "s3://"` succeeds with an EMPTY bucket
and empty path, so not every s3 URI with an empty bucket is rejected; and
`parseUri "file://"` fails even though a missing file path is not among the
claimed failure cases. -/
theorem parseUri_emptyBucket_accepted :
    parseUri (str "s3://") = .ok ⟨.s3, some [], [], str "s3://"⟩ ∧
    isErr (parseUri (str "file://")) = true := by
  constructor
  · decide
  · decide

/-- **C5 (amended)**: `parseUri` fails with `ConfigurationError` exactly when
the input is empty, or the scheme is neither `s3://` nor `file://`, or the
URI starts with `s3:///` (an empty bucket segment followed by a slash), or
the URI is exactly `file://` (empty file path).  A bare `s3://` with nothing
after the scheme is accepted with an empty bucket. -/
theorem parseUri_error_characterization (uri : Str) :
    isErr (parseUri uri) = true ↔
      uri = [] ∨
      (¬ (str "s3://") <+: uri ∧ ¬ (str "file://") <+: uri) ∨
      (str "s3:///") <+: uri ∨
      uri = str "file://" := by
  by_cases h0 : uri = []
  · subst h0
    simp [parseUri, isErr]
  by_cases h1 : (str "s3://") <+: uri
  · obtain ⟨rest, rfl⟩ := h1
    have hB : (str "s3://") <+: (str "s3://" ++ rest) := List.prefix_append _ _
    have hD : ¬ (str "s3://" ++ rest = str "file://") := by
      intro h
      exact absurd (h ▸ hB) (by decide)
    have hC : ((str "s3:///") <+: (str "s3://" ++ rest)) ↔ (['/'] <+: rest) := by
      rw [show str "s3:///" = str "s3://" ++ ['/'] from rfl]
      exact List.prefix_append_right_inj _
    rw [parseUri_s3_eq]
    rcases rest with _ | ⟨c, t⟩
    · decide
    · by_cases hc : c = '/'
      · subst hc
        have hslash : ['/'] <+: ('/' :: t) := ⟨t, rfl⟩
        simp [jsIndexOf, isErr, hC, hslash]
      · have hns : ¬ (['/'] <+: (c :: t)) := by
          rw [List.cons_prefix_cons]
          intro hx
          exact hc hx.1.symm
        cases hj : jsIndexOf '/' t with
        | none =>
          simp [jsIndexOf, hc, hj, isErr, h0, hB, hC, hD, hns]
        | some j =>
          simp [jsIndexOf, hc, hj, isErr, h0, hB, hC, hD, hns, List.take_succ_cons]
  by_cases h2 : (str "file://") <+: uri
  · obtain ⟨rest, rfl⟩ := h2
    have hB : (str "file://") <+: (str "file://" ++ rest) := List.prefix_append _ _
    have hC : ¬ (str "s3:///") <+: (str "file://" ++ rest) := by
      intro hc
      exact h1 (List.IsPrefix.trans (by decide) hc)
    have hD : (str "file://" ++ rest = str "file://") ↔ rest = [] :=
      List.append_right_eq_self
    rw [parseUri_file_eq]
    rcases rest with _ | ⟨c, t⟩
    · simp [isErr, h0, hB, hC, hD]
    · simp [isErr, h0, h1, hB, hC, hD]
  · have hb1 : (str "s3://").isPrefixOf uri = false := by
      rw [Bool.eq_false_iff]
      intro hc
      exact h1 (List.isPrefixOf_iff_prefix.mp hc)
    have hb2 : (str "file://").isPrefixOf uri = false := by
      rw [Bool.eq_false_iff]
      intro hc
      exact h2 (List.isPrefixOf_iff_prefix.mp hc)
    have hC : ¬ (str "s3:///") <+: uri := by
      intro hc
      exact h1 (List.IsPrefix.trans (by decide) hc)
    have hD : uri ≠ str "file://" := by
      intro h
      exact h2 (h ▸ List.prefix_rfl)
    unfold parseUri
    rw [if_neg h0, hb1, hb2]
    simp [isErr, h0, h1, h2, hC, hD]

/-- **C6**: `parseUri "s3://bucket/a/b.txt"` yields scheme s3, bucket
`bucket`, path `a/b.txt`; `parseUri "file://./x/y.txt"` yields scheme file,
no bucket, and the verbatim path `./x/y.txt`; an s3 URI with no path after
the bucket yields the empty path. -/
theorem parseUri_concrete_forms :
    parseUri (str "s3://bucket/a/b.txt") =
      .ok ⟨.s3, some (str "bucket"), str "a/b.txt", str "s3://bucket/a/b.txt"⟩ ∧
    parseUri (str "file://./x/y.txt") =
      .ok ⟨.file, none, str "./x/y.txt", str "file://./x/y.txt"⟩ ∧
    parseUri (str "s3://bucket") =
      .ok ⟨.s3, some (str "bucket"), [], str "s3://bucket"⟩ := by
  refine ⟨by decide, by decide, by decide⟩

/-- **C7**: for every URI that `parseUri` accepts, `getUriDirectory` returns
the parsed path up to and including the last `/` (empty when there is no
`/`), `getUriFilename` returns the remainder, and their concatenation is
exactly the parsed path. -/
theorem getUri_directory_filename_reconstruct (uri : Str) (p : ParsedUri)
    (h : parseUri uri = .ok p) :
    getUriDirectory uri = .ok (pathDirectory p.path) ∧
    getUriFilename uri = .ok (pathFilename p.path) ∧
    pathDirectory p.path ++ pathFilename p.path = p.path ∧
    (jsLastIndexOf p.path '/' = -1 → pathDirectory p.path = []) := by
  refine ⟨?_, ?_, pathDirectory_append_pathFilename p.path, ?_⟩
  · simp [getUriDirectory, h, Except.map]
  · simp [getUriFilename, h, Except.map]
  · intro hnone
    simp [pathDirectory, hnone]

/-- **C7 (witness)**: the reconstruction property instantiated at
`s3://bucket/a/b.txt`. -/
theorem getUri_directory_filename_reconstruct_witness :
    getUriDirectory (str "s3://bucket/a/b.txt") = .ok (pathDirectory (str "a/b.txt")) ∧
    getUriFilename (str "s3://bucket/a/b.txt") = .ok (pathFilename (str "a/b.txt")) ∧
    pathDirectory (str "a/b.txt") ++ pathFilename (str "a/b.txt") = str "a/b.txt" ∧
    (jsLastIndexOf (str "a/b.txt") '/' = -1 → pathDirectory (str "a/b.txt") = []) :=
  getUri_directory_filename_reconstruct (str "s3://bucket/a/b.txt")
    ⟨.s3, some (str "bucket"), str "a/b.txt", str "s3://bucket/a/b.txt"⟩ (by decide)

/-- **C8 (counterexample)**: for a non-not-found backend failure,
`objectExists` (both providers) re-throws the backend error unwrapped, so
the surfaced error is NOT of a declared storage error kind. -/
theorem objectExists_rethrows_unwrapped :
    s3ObjectExists (.err false (str "boom")) = .error (.raw (str "boom")) ∧
    declaredKind (.raw (str "boom")) = false ∧
    fsObjectExists (.err false (str "boom")) = .error (.raw (str "boom")) :=
  ⟨rfl, rfl, rfl⟩

/-- **C8 (amended)**: every modelled storage-provider method EXCEPT
`objectExists` wraps backend failures into its declared storage error kind
with the original backend message preserved as a suffix — except the
filesystem not-found branches, which substitute a `File not found: key`
message (`getObjectStream`) or succeed (`deleteObject`).  `objectExists`
returns `false` on a not-found condition and re-throws any other backend
error unwrapped. -/
theorem provider_error_wrapping (key m signedUrl fileUrl : Str) (nf : Bool) :
    (∃ w, s3ListObjects (.err nf m) = .error (.s3Op w) ∧ m <:+ w) ∧
    (∃ w, s3GetObjectStream key (.err nf m) = .error (.s3Op w) ∧ m <:+ w) ∧
    (∃ w, s3UploadObject (.err nf m) = .error (.s3Op w) ∧ m <:+ w) ∧
    (∃ w, s3DeleteObject key (.err nf m) = .error (.s3Op w) ∧ m <:+ w) ∧
    (∃ w, s3GetObjectUrl signedUrl (.err nf m) = .error (.s3Op w) ∧ m <:+ w) ∧
    s3ObjectExists (.err true m) = .ok false ∧
    s3ObjectExists (.err false m) = .error (.raw m) ∧
    fsObjectExists (.err true m) = .ok false ∧
    fsObjectExists (.err false m) = .error (.raw m) ∧
    (∃ w, fsGetObjectStream key (.err false m) = .error (.storageOp w) ∧ m <:+ w) ∧
    fsGetObjectStream key (.err true m) = .error (.storageOp (str "File not found: " ++ key)) ∧
    (∃ w, fsDeleteObject key (.err false m) = .error (.storageOp w) ∧ m <:+ w) ∧
    fsDeleteObject key (.err true m) = .ok () ∧
    (∃ w, fsGetObjectUrl key fileUrl (.err false m) = .error (.storageOp w) ∧ m <:+ w) := by
  refine ⟨⟨_, rfl, ⟨_, rfl⟩⟩, ⟨_, rfl, ⟨_, rfl⟩⟩, ⟨_, rfl, ⟨_, rfl⟩⟩, ⟨_, rfl, ⟨_, rfl⟩⟩,
    ⟨_, rfl, ⟨_, rfl⟩⟩, rfl, rfl, rfl, rfl, ⟨_, rfl, ⟨_, rfl⟩⟩, rfl, ⟨_, rfl, ⟨_, rfl⟩⟩,
    rfl, ⟨_, rfl, ⟨_, rfl⟩⟩⟩

/-- **C10**: for the filesystem backend, `getObjectUrl` on an absent file
(`ENOENT` from `stat`) throws a `StorageOperationError` whose message
contains `File not found`, instead of returning a `file://` URL. -/
theorem fsGetObjectUrl_absent_file_throws (key fileUrl m : Str) :
    fsGetObjectUrl key fileUrl (.err true m) =
      .error (.storageOp (str "Failed to get URL for " ++ key ++ str ": " ++
        (str "File not found: " ++ key))) ∧
    (str "File not found") <:+: (str "Failed to get URL for " ++ key ++ str ": " ++
      (str "File not found: " ++ key)) := by
  constructor
  · rfl
  · refine ⟨str "Failed to get URL for " ++ key ++ str ": ", str ": " ++ key, ?_⟩
    rw [show str "File not found: " = str "File not found" ++ str ": " from rfl]
    simp [List.append_assoc]
